import Mathlib

/-!
Shallow embedding of the opsdroid AWS skill (`__init__.py`): the tag
normalizer, the office-hours instance selector, the instance state watcher,
and the traces of the chat actions, with theorems checking the spec's
claims about them.

Conventions of the embedding:
* A boto `describe_instances` response is a list of reservations, each a
  list of instances; an instance keeps the fields the skill reads.
* A Python dict of tags is a lookup function `String → Option String`
  (`k in d` is `(d k).isSome`, `d[k]` is the value inside `some`).
* The watcher's `while` loop is run on explicit fuel; exhausting the fuel
  while the loop condition still holds is reported as `running` (the real
  loop would keep going), leaving the condition as `terminated`.
* An action is embedded as a function from its external inputs (provider
  responses, scripted call results, the random choice) to the list of
  observable events it produces: provider calls and chat messages.
-/

namespace AwsSkill

/-- An EC2 instance as the skill reads it: id, optional raw tag list
(`Tags` may be absent), optional `InstanceLifecycle` field. -/
structure Instance where
  instanceId : String
  tags : Option (List (String × String))
  instanceLifecycle : Option String
deriving Repr, DecidableEq

/-- `clean_tags`: convert a list of boto tags into a dictionary
(last write wins, as in a Python dict built by repeated assignment). -/
def clean_tags (array_of_tags : List (String × String)) : String → Option String :=
  array_of_tags.foldl (fun dict tag => fun key => if key = tag.1 then some tag.2 else dict key)
    (fun _ => none)

/-- The tag dictionary of an instance:
`clean_tags(instance["Tags"]) if "Tags" in instance else {}`. -/
def instTags (i : Instance) : String → Option String :=
  match i.tags with
  | some t => clean_tags t
  | none => fun _ => none

/-- The body of the nested loops of `get_office_hours_instances`, deciding
whether one instance's id is appended to the result. -/
def selectInstance (i : Instance) (only_stopped : Bool) : Option String :=
  let tags := instTags i
  if (tags "aws:autoscaling:groupName" = none) ∧
      (i.instanceLifecycle = none ∨ i.instanceLifecycle ≠ some "spot") then
    if (tags "OfficeHours" = none) ∨ ((tags "OfficeHours").getD "").toLower ≠ "false" then
      if only_stopped = false ∨ (tags "StoppedByOfficeHours").isSome then
        some i.instanceId
      else none
    else none
  else none

/-- `get_office_hours_instances`: iterate the reservations and their
instances, appending the ids that pass the office-hours filters. -/
def get_office_hours_instances (response : List (List Instance)) (only_stopped : Bool) :
    List String :=
  (response.map (fun reservation =>
    reservation.filterMap (fun i => selectInstance i only_stopped))).flatten

/-- Outcome of running the watcher loop on a given amount of fuel:
either the loop condition went false (the Python loop returns), or the
fuel ran out with the loop condition still true (the Python loop is still
going).  Both carry the list of "Instance … is now …" notification states
sent so far and the final value of `check_count`. -/
inductive WatchOutcome where
  | terminated (notifications : List String) (polls : Nat)
  | running (notifications : List String) (polls : Nat)
deriving Repr, DecidableEq

/-- The notifications carried by a `WatchOutcome`. -/
def WatchOutcome.notes : WatchOutcome → List String
  | .terminated acc _ => acc
  | .running acc _ => acc

/-- One step per fuel unit of the loop
`while state == new_state or check_count > 60`: increment `check_count`,
poll (`poll n` is the `InstanceState.Name` of attempt `n`, `none` when
`InstanceStatuses` is empty), update `new_state` and notify on a state
that differs from the reference state. -/
def watchGo (poll : Nat → Option String) (state : String) :
    Nat → String → Nat → List String → WatchOutcome
  | 0, new_state, check_count, acc =>
      if state = new_state ∨ 60 < check_count then .running acc check_count
      else .terminated acc check_count
  | fuel + 1, new_state, check_count, acc =>
      if state = new_state ∨ 60 < check_count then
        let c := check_count + 1
        match poll c with
        | some s => watchGo poll state fuel s c (if s = state then acc else acc ++ [s])
        | none => watchGo poll state fuel new_state c acc
      else .terminated acc check_count

/-- `aws_watch_instance_state_until_change`, with the scripted poll
responses and the fuel made explicit: `new_state` starts at the reference
state and `check_count` at 0. -/
def aws_watch_instance_state_until_change (poll : Nat → Option String) (state : String)
    (fuel : Nat) : WatchOutcome :=
  watchGo poll state fuel state 0 []

/-- An observable event of an action: a mutating provider call (API name
and the instance ids passed), or a chat message sent with
`message.respond`. -/
inductive Ev where
  | call (api : String) (ids : List String)
  | respond (msg : String)
deriving Repr, DecidableEq

/-- The reply of `aws_count_servers`: the instances are filtered
server-side to `status`, and the skill formats
`len(response["Reservations"])` into the message. -/
def aws_count_servers (response : List (List Instance)) (status : String) : String :=
  "There are " ++ toString response.length ++ " servers " ++ status

/-- Modelled from the spec: the quantity §4.5 says the count action
reports, "the total count of instances (across all reservations)". -/
def totalInstances (response : List (List Instance)) : Nat :=
  (response.map List.length).sum

/-- The display name computed by `aws_list_servers` for one instance:
collect the values of the tags whose key is `Name`; use the single value
only when exactly one such tag exists, otherwise keep `""`. -/
def aws_list_servers_name (i : Instance) : String :=
  match i.tags with
  | none => ""
  | some tagList =>
      let names := (tagList.filter (fun x => x.1 = "Name")).map (fun x => x.2)
      if names.length = 1 then names.headD "" else ""

/-- Modelled from the spec: §4.5's display name, "first tag with key
`Name`, or empty". -/
def specDisplayName (i : Instance) : String :=
  match i.tags with
  | none => ""
  | some tagList => (((tagList.find? (fun x => x.1 = "Name")).map (fun x => x.2)).getD "")

/-- `aws_start_server`.  `startResult n` scripts the outcome of the n-th
`client.start_instances` call: an exception text, or the
`StartingInstances` list as pairs `(InstanceId, CurrentState.Name)`.
`poll iid` scripts the watcher's `describe_instance_status` responses for
instance `iid`, and `fuel` bounds each watcher run.  Returns the events
produced and, in the second component, the text of an exception that
escapes the handler (the first `start_instances` call sits outside the
`try`). -/
def aws_start_server (startResult : Nat → Except String (List (String × String)))
    (poll : String → Nat → Option String) (fuel : Nat) (instanceid : String) :
    List Ev × Option String :=
  match startResult 1 with
  | .error e => ([Ev.call "start_instances" [instanceid]], some e)
  | .ok _ =>
      match startResult 2 with
      | .error e =>
          ([Ev.call "start_instances" [instanceid],
            Ev.call "start_instances" [instanceid],
            Ev.respond e], none)
      | .ok startingInstances =>
          ([Ev.call "start_instances" [instanceid],
            Ev.call "start_instances" [instanceid]] ++
            startingInstances.flatMap (fun p =>
              Ev.respond ("Changed instance " ++ p.1 ++ " to " ++ p.2) ::
                ((aws_watch_instance_state_until_change (poll p.1) p.2 fuel).notes.map
                  (fun s => Ev.respond ("Instance " ++ p.1 ++ " is now " ++ s)))), none)

/-- The two sign-off lines `aws_stop_dev` picks from at random. -/
def byes : List String :=
  ["Right, I'm done for the day. Shutting down and going home, Bye!",
   "Ok I'm off. Shutting down the dev stacks. See ya!"]

/-- `aws_stop_dev`, the scheduled stop action.  `r` scripts
`random.choice`, `stopResult` and `tagResult` script the
`stop_instances` / `create_tags` calls (`.error e` raises a
`ClientError` whose text is `e`).  Returns the events produced; a
`ClientError` from either provider call is caught by the single `except`
and reported, and an error from `stop_instances` skips `create_tags`. -/
def aws_stop_dev (response : List (List Instance)) (r : Nat)
    (stopResult : Except String Unit) (tagResult : Except String Unit) : List Ev :=
  let bye := byes.getD (r % byes.length) ""
  let instances := get_office_hours_instances response false
  if instances.length > 0 then
    [Ev.respond bye,
     Ev.respond ("Shutting down " ++ toString instances.length ++ " dev instances"),
     Ev.call "stop_instances" instances] ++
      (match stopResult with
       | .error e => [Ev.respond e]
       | .ok _ =>
           Ev.call "create_tags" instances ::
             (match tagResult with
              | .error e => [Ev.respond e]
              | .ok _ => []))
  else
    [Ev.respond bye, Ev.respond "I couldn't find any instances to shut down"]

/-- The tag write `aws_stop_dev` issues after a successful stop, applied
to one instance: `create_tags` adds `StoppedByOfficeHours=true` on top of
the instance's existing tags. -/
def addStoppedTag (i : Instance) : Instance :=
  { i with tags := some ((i.tags.getD []) ++ [("StoppedByOfficeHours", "true")]) }

/-- The snapshot after `aws_stop_dev`'s tag write: every instance whose id
is among the selected ids carries the new tag, nothing else changes. -/
def applyStopTagging (response : List (List Instance)) : List (List Instance) :=
  let selected := get_office_hours_instances response false
  response.map (fun reservation =>
    reservation.map (fun i =>
      if i.instanceId ∈ selected then addStoppedTag i else i))

/-! ### Watcher lemmas -/

/-- When the loop condition is false — the last polled state differs from
the reference state and `check_count` has not passed 60 — the loop
returns at once, whatever fuel is left. -/
theorem watchGo_stop (poll : Nat → Option String) (state new_state : String)
    (check_count : Nat) (hns : state ≠ new_state) (hc : ¬ 60 < check_count) :
    ∀ fuel acc, watchGo poll state fuel new_state check_count acc =
      WatchOutcome.terminated acc check_count
  | 0, acc => by simp [watchGo, hns, hc]
  | fuel + 1, acc => by simp [watchGo, hns, hc]

/-- While every poll returns the reference state (or no status at all),
the loop condition stays true and each fuel unit is one more poll, with
no notification. -/
theorem watchGo_unchanged (poll : Nat → Option String) (state : String)
    (h : ∀ n, poll n = some state ∨ poll n = none) :
    ∀ (fuel check_count : Nat),
      watchGo poll state fuel state check_count [] =
        WatchOutcome.running [] (check_count + fuel) := by
  intro fuel
  induction fuel with
  | zero => intro c; simp [watchGo]
  | succ fuel ih =>
      intro c
      rcases h (c + 1) with hp | hp
      · simpa [watchGo, hp, Nat.add_assoc, Nat.add_comm 1 fuel] using ih (c + 1)
      · simpa [watchGo, hp, Nat.add_assoc, Nat.add_comm 1 fuel] using ih (c + 1)

/-- If attempts after `c` and before `k` see no state change (or no
status), attempt `k ≤ 60` sees state `s ≠ state`, and the fuel reaches
attempt `k`, the loop notifies `s` once and returns with
`check_count = k`. -/
theorem watchGo_first_change (poll : Nat → Option String) (state s : String) (k : Nat)
    (hk : k ≤ 60) (hchange : poll k = some s) (hs : s ≠ state) :
    ∀ (fuel check_count : Nat) (acc : List String), check_count < k →
      k ≤ check_count + fuel →
      (∀ j, j < k → check_count < j → poll j = some state ∨ poll j = none) →
      watchGo poll state fuel state check_count acc =
        WatchOutcome.terminated (acc ++ [s]) k := by
  intro fuel
  induction fuel with
  | zero => intro c acc hck hkc _; omega
  | succ fuel ih =>
      intro c acc hck hkc hbefore
      by_cases hlast : c + 1 = k
      · have hp : poll (c + 1) = some s := by rw [hlast]; exact hchange
        rw [watchGo, if_pos (Or.inl rfl)]
        simp only [hp, if_neg hs]
        rw [hlast]
        exact watchGo_stop poll state s k (fun hss => hs hss.symm) (by omega) fuel (acc ++ [s])
      · have hlt : c + 1 < k := by omega
        rcases hbefore (c + 1) hlt (by omega) with hp | hp
        · rw [watchGo, if_pos (Or.inl rfl)]
          simp only [hp, if_pos rfl]
          exact ih (c + 1) acc hlt (by omega) (fun j hj hcj => hbefore j hj (by omega))
        · rw [watchGo, if_pos (Or.inl rfl)]
          simp only [hp]
          exact ih (c + 1) acc hlt (by omega) (fun j hj hcj => hbefore j hj (by omega))

/-- C1.  The claim says a watch whose polled state never differs from the
reference state performs exactly 60 polls and then terminates.  The code
does not: the loop condition `state == new_state or check_count > 60`
stays true as long as the state is unchanged, so for every fuel bound the
loop is still running, having polled once per fuel unit and notified
nothing — the watch never terminates. -/
theorem watch_unchanged_never_terminates (poll : Nat → Option String) (state : String)
    (h : ∀ n, poll n = some state ∨ poll n = none) (fuel : Nat) :
    aws_watch_instance_state_until_change poll state fuel =
      WatchOutcome.running [] fuel := by
  unfold aws_watch_instance_state_until_change
  simpa using watchGo_unchanged poll state h fuel 0

/-- Witness for C1: a scripted poll that always answers "stopped" leaves
the watch still running after 61 polls with no notification, where the
claim says it stops at 60. -/
theorem watch_unchanged_never_terminates_witness :
    aws_watch_instance_state_until_change (fun _ => some "stopped") "stopped" 61 =
      WatchOutcome.running [] 61 :=
  watch_unchanged_never_terminates (fun _ => some "stopped") "stopped"
    (fun _ => Or.inl rfl) 61

/-- C3 counterexample.  A scripted sequence whose first differing state
arrives at attempt 62 ("stopped" for the first 61 polls, then "running"):
the watch fires two notifications in 63 polls and has not terminated, so
"exactly one change notification fires ... and the watch terminates
immediately after it" fails for this sequence. -/
theorem watch_late_change_two_notifications :
    (aws_watch_instance_state_until_change
        (fun n => if n ≤ 61 then some "stopped" else some "running") "stopped" 63).notes.length
      = 2 ∧
    aws_watch_instance_state_until_change
        (fun n => if n ≤ 61 then some "stopped" else some "running") "stopped" 63 =
      WatchOutcome.running ["running", "running"] 63 := by
  constructor <;> rfl

/-- C3 amended.  For every scripted sequence whose first differing poll
response arrives at some attempt `k` within the 60-attempt budget (polls
before it returning the reference state or no status), the watch fires
exactly one notification, carrying that first differing state, and
terminates immediately after that poll. -/
theorem watch_first_change_notifies_once (poll : Nat → Option String) (state s : String)
    (k fuel : Nat) (hk0 : 0 < k) (hk : k ≤ 60) (hfuel : k ≤ fuel)
    (hchange : poll k = some s) (hs : s ≠ state)
    (hbefore : ∀ j, j < k → 0 < j → poll j = some state ∨ poll j = none) :
    aws_watch_instance_state_until_change poll state fuel =
      WatchOutcome.terminated [s] k := by
  unfold aws_watch_instance_state_until_change
  simpa using
    watchGo_first_change poll state s k hk hchange hs fuel 0 [] hk0 (by omega)
      (fun j hj hcj => hbefore j hj hcj)

/-- Witness for the amended C3: the spec's example — reference state
"stopped", scripted polls "stopped", "stopped", "running" — gives exactly
one notification, with state "running", after the third poll. -/
theorem watch_first_change_notifies_once_witness :
    aws_watch_instance_state_until_change
        (fun n => if n ≤ 2 then some "stopped" else some "running") "stopped" 60 =
      WatchOutcome.terminated ["running"] 3 :=
  watch_first_change_notifies_once
    (fun n => if n ≤ 2 then some "stopped" else some "running") "stopped" "running"
    3 60 (by decide) (by decide) (by decide) (by decide) (by decide)
    (by decide)

/-! ### Count action -/

/-- C2.  The claim says the reply reports the total count of instances
across all reservations; the code formats `len(response["Reservations"])`.
On a response with one reservation holding two instances in the requested
state, the reply says 1 while the instance count is 2. -/
theorem aws_count_servers_reports_reservations :
    aws_count_servers [[Instance.mk "i-1" none none, Instance.mk "i-2" none none]] "running"
      = "There are 1 servers running" ∧
    totalInstances [[Instance.mk "i-1" none none, Instance.mk "i-2" none none]] = 2 ∧
    aws_count_servers [[Instance.mk "i-1" none none, Instance.mk "i-2" none none]] "running"
      ≠ "There are " ++
          toString (totalInstances
            [[Instance.mk "i-1" none none, Instance.mk "i-2" none none]]) ++
          " servers running" := by
  refine ⟨rfl, rfl, by decide⟩

/-! ### Display name of the list action -/

/-- C9 counterexample.  An instance with two `Name` tags: the code keeps
the empty display name (it requires exactly one `Name` tag), while the
claim says the first `Name` tag's value, "a", is used. -/
theorem aws_list_servers_name_two_name_tags :
    aws_list_servers_name (Instance.mk "i-1" (some [("Name", "a"), ("Name", "b")]) none)
      = "" ∧
    specDisplayName (Instance.mk "i-1" (some [("Name", "a"), ("Name", "b")]) none) = "a" ∧
    ("" : String) ≠ "a" := by
  refine ⟨rfl, rfl, by decide⟩

/-- `find?` returns the head of the filtered list. -/
theorem find_eq_head_filter {α : Type} (p : α → Bool) (l : List α) :
    l.find? p = (l.filter p).head? := by
  induction l with
  | nil => rfl
  | cons a l ih =>
      cases hp : p a with
      | true => rw [List.find?_cons_of_pos _ hp, List.filter_cons_of_pos hp]; rfl
      | false => rw [List.find?_cons_of_neg _ (by simp [hp]), List.filter_cons_of_neg (by simp [hp]), ih]

/-- C9 amended.  When the instance carries at most one tag with key
`Name`, the display name computed by `aws_list_servers` is the value of
the first (only) `Name` tag, or empty when there is none; with two or
more `Name` tags the code keeps the empty name instead. -/
theorem aws_list_servers_name_eq_first_of_unique (i : Instance)
    (h : (((i.tags.getD []).filter (fun x => x.1 = "Name")).length ≤ 1)) :
    aws_list_servers_name i = specDisplayName i := by
  obtain ⟨iid, tags, lc⟩ := i
  cases tags with
  | none => rfl
  | some tagList =>
      simp only [Option.getD_some] at h
      cases hf : tagList.filter (fun x => x.1 = "Name") with
      | nil =>
          have hfind : tagList.find? (fun x => x.1 = "Name") = none := by
            rw [find_eq_head_filter, hf]; rfl
          simp [aws_list_servers_name, specDisplayName, hf, hfind]
      | cons x rest =>
          cases rest with
          | nil =>
              have hfind : tagList.find? (fun x => x.1 = "Name") = some x := by
                rw [find_eq_head_filter, hf]; rfl
              simp [aws_list_servers_name, specDisplayName, hf, hfind]
          | cons y rest' => rw [hf] at h; simp at h
/-- Witness for the amended C9: a single `Name=web` tag shows as "web"
under both the code's rule and the spec's first-`Name`-tag rule. -/
theorem aws_list_servers_name_eq_first_of_unique_witness :
    aws_list_servers_name (Instance.mk "i-1" (some [("Name", "web"), ("Env", "dev")]) none)
      = specDisplayName (Instance.mk "i-1" (some [("Name", "web"), ("Env", "dev")]) none) :=
  aws_list_servers_name_eq_first_of_unique
    (Instance.mk "i-1" (some [("Name", "web"), ("Env", "dev")]) none) (by decide)

/-! ### Scheduled stop action -/

/-- C7.  When the selection is non-empty and the bulk `stop_instances`
call raises a client error, `aws_stop_dev` reports the error text as a
message and never issues the `create_tags` call. -/
theorem aws_stop_dev_stop_error_no_tag_write (response : List (List Instance)) (r : Nat)
    (e : String) (tagResult : Except String Unit)
    (h : get_office_hours_instances response false ≠ []) :
    Ev.respond e ∈ aws_stop_dev response r (Except.error e) tagResult ∧
    ∀ ids, Ev.call "create_tags" ids ∉ aws_stop_dev response r (Except.error e) tagResult := by
  have hlen : 0 < (get_office_hours_instances response false).length :=
    List.length_pos.mpr h
  constructor
  · simp [aws_stop_dev, hlen]
  · intro ids
    simp [aws_stop_dev, hlen]

/-- Witness for C7: one eligible untagged instance, `stop_instances`
raising "boom". -/
theorem aws_stop_dev_stop_error_no_tag_write_witness :
    Ev.respond "boom" ∈
      aws_stop_dev [[Instance.mk "i-1" none none]] 0 (Except.error "boom") (Except.ok ()) ∧
    ∀ ids, Ev.call "create_tags" ids ∉
      aws_stop_dev [[Instance.mk "i-1" none none]] 0 (Except.error "boom") (Except.ok ()) :=
  aws_stop_dev_stop_error_no_tag_write [[Instance.mk "i-1" none none]] 0 "boom"
    (Except.ok ()) (by decide)

/-- C8.  When the selection is empty, `aws_stop_dev` reports the
informational "couldn't find any instances" message and issues no
provider call at all (no `stop_instances`, no `create_tags`). -/
theorem aws_stop_dev_empty_no_mutation (response : List (List Instance)) (r : Nat)
    (stopResult tagResult : Except String Unit)
    (h : get_office_hours_instances response false = []) :
    Ev.respond "I couldn't find any instances to shut down" ∈
      aws_stop_dev response r stopResult tagResult ∧
    ∀ api ids, Ev.call api ids ∉ aws_stop_dev response r stopResult tagResult := by
  constructor
  · simp [aws_stop_dev, h]
  · intro api ids
    simp [aws_stop_dev, h]

/-- Witness for C8: a snapshot holding only a spot instance selects
nothing; the action only speaks, it mutates nothing. -/
theorem aws_stop_dev_empty_no_mutation_witness :
    Ev.respond "I couldn't find any instances to shut down" ∈
      aws_stop_dev [[Instance.mk "i-0" none (some "spot")]] 1 (Except.ok ()) (Except.ok ()) ∧
    ∀ api ids, Ev.call api ids ∉
      aws_stop_dev [[Instance.mk "i-0" none (some "spot")]] 1 (Except.ok ()) (Except.ok ()) :=
  aws_stop_dev_empty_no_mutation [[Instance.mk "i-0" none (some "spot")]] 1
    (Except.ok ()) (Except.ok ()) (by decide)

/-! ### Ad-hoc start action -/

/-- The number of `start_instances` calls in an event list. -/
def startCallCount (evs : List Ev) : Nat :=
  (evs.filter (fun ev =>
    match ev with
    | Ev.call "start_instances" _ => true
    | _ => false)).length

/-- The per-instance messages of `aws_start_server` (the "Changed
instance" line and the watcher notifications) contain no provider call. -/
theorem start_responses_not_calls (startingInstances : List (String × String))
    (poll : String → Nat → Option String) (fuel : Nat) :
    ∀ ev ∈ startingInstances.flatMap (fun p =>
        Ev.respond ("Changed instance " ++ p.1 ++ " to " ++ p.2) ::
          ((aws_watch_instance_state_until_change (poll p.1) p.2 fuel).notes.map
            (fun s => Ev.respond ("Instance " ++ p.1 ++ " is now " ++ s)))),
      ∀ api ids, ev ≠ Ev.call api ids := by
  intro ev hev api ids
  rcases List.mem_flatMap.1 hev with ⟨p, _, hp⟩
  rcases List.mem_cons.1 hp with hhead | htail
  · subst hhead; intro hco; cases hco
  · rcases List.mem_map.1 htail with ⟨s, _, hs⟩
    subst hs; intro hco; cases hco

/-- C4.  `aws_start_server` calls `start_instances` a first time outside
the `try` block and a second time inside it, both with the same single
instance id: a client error from the first call escapes uncaught (no
user-visible message is produced), while once the first call succeeds the
action always issues exactly two `start_instances` calls, every one with
that id, and no error escapes. -/
theorem aws_start_server_first_call_unguarded
    (startResult : Nat → Except String (List (String × String)))
    (poll : String → Nat → Option String) (fuel : Nat) (instanceid : String) :
    (∀ e, startResult 1 = Except.error e →
      aws_start_server startResult poll fuel instanceid =
        ([Ev.call "start_instances" [instanceid]], some e)) ∧
    (∀ insts, startResult 1 = Except.ok insts →
      startCallCount (aws_start_server startResult poll fuel instanceid).1 = 2 ∧
      (∀ ids, Ev.call "start_instances" ids ∈
          (aws_start_server startResult poll fuel instanceid).1 → ids = [instanceid]) ∧
      (aws_start_server startResult poll fuel instanceid).2 = none) := by
  constructor
  · intro e he
    simp [aws_start_server, he]
  · intro insts h1
    cases h2 : startResult 2 with
    | error e =>
        refine ⟨?_, ?_, ?_⟩
        · simp [aws_start_server, h1, h2, startCallCount]
        · intro ids hmem
          simp [aws_start_server, h1, h2] at hmem
          tauto
        · simp [aws_start_server, h1, h2]
    | ok startingInstances =>
        have htail := start_responses_not_calls startingInstances poll fuel
        refine ⟨?_, ?_, ?_⟩
        · have hnil : (startingInstances.flatMap (fun p =>
              Ev.respond ("Changed instance " ++ p.1 ++ " to " ++ p.2) ::
              ((aws_watch_instance_state_until_change (poll p.1) p.2 fuel).notes.map
                (fun s => Ev.respond ("Instance " ++ p.1 ++ " is now " ++ s))))).filter
                (fun ev => match ev with
                  | Ev.call "start_instances" _ => true
                  | _ => false) = [] := by
            rw [List.filter_eq_nil_iff]
            intro ev hev
            cases ev with
            | respond m => simp
            | call api ids => exact absurd rfl (htail _ hev api ids)
          simp [aws_start_server, h1, h2, startCallCount, List.filter_append, hnil]
        · intro ids hmem
          simp only [aws_start_server, h1, h2] at hmem
          rcases List.mem_append.1 hmem with hhead | hrest
          · rcases List.mem_cons.1 hhead with h | h
            · cases h; rfl
            · rcases List.mem_cons.1 h with h' | h'
              · cases h'; rfl
              · cases h'
          · exact absurd rfl (htail _ hrest "start_instances" ids)
        · simp [aws_start_server, h1, h2]

/-- Witness for C4: with a succeeding script the action issues exactly
two `start_instances` calls; with a failing first call the error "denied"
escapes uncaught after a single call. -/
theorem aws_start_server_first_call_unguarded_witness :
    startCallCount (aws_start_server (fun _ => Except.ok [("i-9", "pending")])
        (fun _ _ => none) 0 "i-9").1 = 2 ∧
    aws_start_server (fun _ => Except.error "denied") (fun _ _ => none) 0 "i-9" =
      ([Ev.call "start_instances" ["i-9"]], some "denied") :=
  ⟨((aws_start_server_first_call_unguarded (fun _ => Except.ok [("i-9", "pending")])
      (fun _ _ => none) 0 "i-9").2 [("i-9", "pending")] rfl).1,
   (aws_start_server_first_call_unguarded (fun _ => Except.error "denied")
      (fun _ _ => none) 0 "i-9").1 "denied" rfl⟩

/-! ### Selector lemmas -/

/-- The exclusion predicate of C5: an `OfficeHours` tag whose value is
case-insensitively "false", membership in an autoscaling group, or a spot
lifecycle class. -/
def excludedByPolicy (i : Instance) : Bool :=
  (instTags i "aws:autoscaling:groupName").isSome ||
  (i.instanceLifecycle == some "spot") ||
  (match instTags i "OfficeHours" with
   | some v => v.toLower == "false"
   | none => false)

/-- An instance hit by any of the three exclusions is never appended by
the `only_stopped=False` pass of the selector loop. -/
theorem selectInstance_none_of_excluded (i : Instance) (h : excludedByPolicy i = true) :
    selectInstance i false = none := by
  simp only [excludedByPolicy, Bool.or_eq_true, beq_iff_eq, Option.isSome_iff_exists] at h
  simp only [selectInstance]
  rcases h with (⟨v, hv⟩ | hspot) | hoh
  · simp [hv]
  · simp [hspot]
  · cases hv : instTags i "OfficeHours" with
    | none => rw [hv] at hoh; simp at hoh
    | some v =>
        rw [hv] at hoh
        have hlow : v.toLower = "false" := by simpa using hoh
        by_cases h1 : (instTags i "aws:autoscaling:groupName" = none) ∧
            (i.instanceLifecycle = none ∨ i.instanceLifecycle ≠ some "spot")
        · simp [h1, hv, hlow]
        · simp [h1]

/-- Dropping elements on which `f` is `none` anyway does not change a
`filterMap`. -/
theorem filterMap_filter_eq_of_none {α β : Type} (f : α → Option β) (p : α → Bool)
    (h : ∀ a, p a = false → f a = none) (l : List α) :
    (l.filter p).filterMap f = l.filterMap f := by
  induction l with
  | nil => rfl
  | cons a l ih =>
      cases hp : p a with
      | true => simp [List.filter_cons, hp, List.filterMap_cons, ih]
      | false => simp [List.filter_cons, hp, List.filterMap_cons, h a hp, ih]

/-- C5.  Removing from the snapshot every instance with an
`OfficeHours=false` tag (case-insensitive), an autoscaling-group tag, or
a spot lifecycle class leaves `select(_, false)` unchanged: no such
instance, whatever its other tags, contributes to the selection. -/
theorem select_false_excludes_policy (response : List (List Instance)) :
    get_office_hours_instances
        (response.map (fun reservation =>
          reservation.filter (fun i => !(excludedByPolicy i)))) false =
      get_office_hours_instances response false := by
  unfold get_office_hours_instances
  rw [List.map_map]
  apply congrArg List.flatten
  apply List.map_congr_left
  intro r _
  simp only [Function.comp]
  exact filterMap_filter_eq_of_none _ _
    (fun i hi => selectInstance_none_of_excluded i (by simpa using hi)) r

/-- The `only_stopped=True` pass keeps an instance exactly when the
`only_stopped=False` pass keeps it and the `StoppedByOfficeHours` tag is
present. -/
theorem selectInstance_true_eq (i : Instance) :
    selectInstance i true =
      if (instTags i "StoppedByOfficeHours").isSome = true then selectInstance i false
      else none := by
  simp only [selectInstance]
  by_cases h1 : (instTags i "aws:autoscaling:groupName" = none) ∧
      (i.instanceLifecycle = none ∨ i.instanceLifecycle ≠ some "spot")
  · by_cases h2 : (instTags i "OfficeHours" = none) ∨
        ((instTags i "OfficeHours").getD "").toLower ≠ "false"
    · by_cases h3 : (instTags i "StoppedByOfficeHours").isSome = true
      · simp [h1, h2, h3]
      · simp [h1, h2, h3]
    · simp [h1, h2]
  · simp [h1]

/-- Anything selected by the `only_stopped=True` pass is selected by the
`only_stopped=False` pass. -/
theorem selectInstance_true_le (i : Instance) (x : String)
    (h : selectInstance i true = some x) : selectInstance i false = some x := by
  rw [selectInstance_true_eq] at h
  by_cases h3 : (instTags i "StoppedByOfficeHours").isSome = true
  · rwa [if_pos h3] at h
  · rw [if_neg h3] at h; cases h

/-- Restricting a `filterMap` through a filter when the functions agree
on the filter. -/
theorem filterMap_eq_filterMap_filter {α β : Type} (f g : α → Option β) (p : α → Bool)
    (h : ∀ a, f a = if p a = true then g a else none) (l : List α) :
    l.filterMap f = (l.filter p).filterMap g := by
  induction l with
  | nil => rfl
  | cons a l ih =>
      cases hp : p a with
      | true => simp [List.filterMap_cons, List.filter_cons, hp, h a, ih]
      | false => simp [List.filterMap_cons, List.filter_cons, hp, h a, ih]

/-- A pointwise-smaller `filterMap` yields a sublist. -/
theorem filterMap_sublist_of_le {α β : Type} (f g : α → Option β)
    (h : ∀ a b, f a = some b → g a = some b) (l : List α) :
    (l.filterMap f).Sublist (l.filterMap g) := by
  induction l with
  | nil => exact List.Sublist.refl _
  | cons a l ih =>
      cases hf : f a with
      | none =>
          cases hg : g a with
          | none => simpa [List.filterMap_cons, hf, hg] using ih
          | some b =>
              simp only [List.filterMap_cons, hf, hg]
              exact ih.cons b
      | some b =>
          have hg := h a b hf
          simp only [List.filterMap_cons, hf, hg]
          exact ih.cons₂ b

/-- The start-eligible selection is a sub-sequence of the stop-eligible
selection, reservation by reservation. -/
theorem get_office_true_sublist (response : List (List Instance)) :
    (get_office_hours_instances response true).Sublist
      (get_office_hours_instances response false) := by
  unfold get_office_hours_instances
  induction response with
  | nil => simp
  | cons r rest ih =>
      simp only [List.map_cons, List.flatten_cons]
      exact (filterMap_sublist_of_le _ _ selectInstance_true_le r).append ih

/-- C6.  `select(_, true)` returns exactly the ids `select(_, false)`
returns for the instances that also carry `StoppedByOfficeHours`; it is a
sub-sequence of `select(_, false)`; and an instance with no tags at all
whose lifecycle class is not spot is selected by `select(_, false)` but
never by `select(_, true)`. -/
theorem select_true_refines_select_false (response : List (List Instance)) :
    (get_office_hours_instances response true =
      get_office_hours_instances
        (response.map (fun reservation =>
          reservation.filter (fun i => (instTags i "StoppedByOfficeHours").isSome)))
        false) ∧
    (get_office_hours_instances response true).Sublist
      (get_office_hours_instances response false) ∧
    (∀ i : Instance, i.tags = none → i.instanceLifecycle ≠ some "spot" →
      selectInstance i false = some i.instanceId ∧ selectInstance i true = none) := by
  refine ⟨?_, get_office_true_sublist response, ?_⟩
  · unfold get_office_hours_instances
    rw [List.map_map]
    apply congrArg List.flatten
    apply List.map_congr_left
    intro r _
    simp only [Function.comp]
    exact filterMap_eq_filterMap_filter _ _ _ (fun i => selectInstance_true_eq i) r
  · intro i h1 h2
    obtain ⟨iid, tags, lc⟩ := i
    cases h1
    constructor
    · simp [selectInstance, instTags, h2]
    · simp [selectInstance, instTags]

/-- Witness for C6: on a one-instance snapshot with no tags the
`select(_, false)` pass keeps the id while `select(_, true)` drops it. -/
theorem select_true_refines_select_false_witness :
    selectInstance (Instance.mk "i-1" none none) false = some "i-1" ∧
    selectInstance (Instance.mk "i-1" none none) true = none :=
  (select_true_refines_select_false []).2.2 (Instance.mk "i-1" none none) rfl
    (by decide)

/-- C6 counterexample.  The claim also says an instance with no tags at
all is included by `select(_, false)`; a spot instance with no tags is
not: the selection of a snapshot holding only it is empty. -/
theorem select_false_drops_spot_without_tags :
    (Instance.mk "i-0" none (some "spot")).tags = none ∧
    get_office_hours_instances [[Instance.mk "i-0" none (some "spot")]] false = [] := by
  refine ⟨rfl, by decide⟩

/-! ### Stop-then-start round trip -/

/-- Looking up any key in the tags of `addStoppedTag i`: the new
`StoppedByOfficeHours=true` entry wins for its own key, every other key
reads as before. -/
theorem clean_tags_append (l : List (String × String)) (k v q : String) :
    clean_tags (l ++ [(k, v)]) q = if q = k then some v else clean_tags l q := by
  simp [clean_tags, List.foldl_append]

/-- Tag lookup after the `create_tags` write. -/
theorem instTags_addStoppedTag (i : Instance) (q : String) :
    instTags (addStoppedTag i) q =
      if q = "StoppedByOfficeHours" then some "true" else instTags i q := by
  obtain ⟨iid, tags, lc⟩ := i
  cases tags with
  | none => simp [instTags, addStoppedTag, clean_tags]
  | some t => simp [instTags, addStoppedTag, clean_tags_append]

/-- Writing `StoppedByOfficeHours` does not change the
`only_stopped=False` selection of an instance. -/
theorem selectInstance_addStoppedTag_false (i : Instance) :
    selectInstance (addStoppedTag i) false = selectInstance i false := by
  have h1 : ("aws:autoscaling:groupName" : String) ≠ "StoppedByOfficeHours" := by decide
  have h2 : ("OfficeHours" : String) ≠ "StoppedByOfficeHours" := by decide
  simp only [selectInstance, instTags_addStoppedTag]
  simp [addStoppedTag, h1, h2]

/-- After the tag write, the `only_stopped=True` selection of an instance
agrees with its former `only_stopped=False` selection. -/
theorem selectInstance_addStoppedTag_true (i : Instance) :
    selectInstance (addStoppedTag i) true = selectInstance i false := by
  rw [selectInstance_true_eq]
  simp [instTags_addStoppedTag, selectInstance_addStoppedTag_false]

/-- The selector only ever emits the instance's own id. -/
theorem selectInstance_eq_some (i : Instance) (b : Bool) (x : String)
    (h : selectInstance i b = some x) : x = i.instanceId := by
  simp only [selectInstance] at h
  split at h
  · split at h
    · split at h
      · exact (Option.some.inj h).symm
      · cases h
    · cases h
  · cases h

/-- A selected id is in the selection of the whole snapshot. -/
theorem mem_get_office_of_select {response : List (List Instance)} {r : List Instance}
    {i : Instance} (hr : r ∈ response) (hi : i ∈ r) {b : Bool} {x : String}
    (hx : selectInstance i b = some x) :
    x ∈ get_office_hours_instances response b := by
  unfold get_office_hours_instances
  rw [List.mem_flatten]
  exact ⟨r.filterMap (fun j => selectInstance j b),
    List.mem_map_of_mem _ hr, List.mem_filterMap.2 ⟨i, hi, hx⟩⟩

/-- One reservation of the round trip: tagging the instances whose ids
are in a list covering everything the `false` pass selects turns the
`true` pass into the `false` pass. -/
theorem filterMap_update_eq (sel : List String) (r : List Instance)
    (hsel : ∀ i ∈ r, ∀ x, selectInstance i false = some x → x ∈ sel) :
    (r.map (fun i => if i.instanceId ∈ sel then addStoppedTag i else i)).filterMap
        (fun i => selectInstance i true) =
      r.filterMap (fun i => selectInstance i false) := by
  rw [List.filterMap_map]
  apply List.filterMap_congr
  intro i hi
  simp only [Function.comp_apply]
  by_cases hmem : i.instanceId ∈ sel
  · rw [if_pos hmem]
    exact selectInstance_addStoppedTag_true i
  · rw [if_neg hmem]
    cases hx : selectInstance i false with
    | some x =>
        have hxid : x = i.instanceId := selectInstance_eq_some i false x hx
        exact absurd (hxid ▸ hsel i hi x hx) hmem
    | none =>
        rw [selectInstance_true_eq]
        by_cases h3 : (instTags i "StoppedByOfficeHours").isSome = true
        · rw [if_pos h3, hx]
        · rw [if_neg h3]

/-- C10.  Writing `StoppedByOfficeHours` onto exactly the ids selected by
`select(snapshot, false)` — the stop action's `create_tags` call — makes
the start-eligible selection of the updated snapshot exactly the stopped
id sequence: `select(updated, true) = select(snapshot, false)`. -/
theorem stop_tag_write_start_roundtrip (response : List (List Instance)) :
    get_office_hours_instances (applyStopTagging response) true =
      get_office_hours_instances response false := by
  have key : ∀ sel : List String,
      (∀ r ∈ response, ∀ i ∈ r, ∀ x, selectInstance i false = some x → x ∈ sel) →
      get_office_hours_instances
          (response.map (fun r =>
            r.map (fun i => if i.instanceId ∈ sel then addStoppedTag i else i))) true =
        get_office_hours_instances response false := by
    intro sel hsel
    unfold get_office_hours_instances
    rw [List.map_map]
    apply congrArg List.flatten
    apply List.map_congr_left
    intro r hr
    simp only [Function.comp]
    exact filterMap_update_eq sel r (hsel r hr)
  have happ : applyStopTagging response =
      response.map (fun r => r.map (fun i =>
        if i.instanceId ∈ get_office_hours_instances response false
        then addStoppedTag i else i)) := rfl
  rw [happ]
  exact key _ (fun r hr i hi x hx => mem_get_office_of_select hr hi hx)

end AwsSkill
